import Mathlib

/-!
# Verification of the carbon reverse-flotation process model

Shallow embedding of the core process model of `carbon_app.py`: the grade
model (`calculate_carbon_grades`), the mass-balance solver
(`calculate_mass_balance`), the metal-loss model (`calculate_zn_loss`) and
the top-level orchestration (`calculate_performance`). Python floats are
modelled as rationals (`ℚ`); Python's `max`/`min` become `max`/`min` on `ℚ`.
Python raises `ZeroDivisionError` on division by zero, so the `try/except`
block of `calculate_mass_balance` is modelled by an explicit guard on the
two denominators that appear inside the `try`; when the guard trips, the
fixed fallback triple is returned, exactly as the `except` branch does.
-/

namespace CarbonApp

/-- Grade model, from `calculate_carbon_grades` in `carbon_app.py`:
maps (rougher_air, jameson_air, luproset, feed_carbon) to
(concentrate_carbon, tailings_carbon). -/
def calculate_carbon_grades (rougher_air jameson_air luproset feed_carbon : ℚ) : ℚ × ℚ :=
  let base_conc_grade : ℚ := 40.0
  let rougher_air_grade_effect := -rougher_air * 0.012
  let jameson_air_grade_effect := -jameson_air * 0.006
  let luproset_grade_effect := luproset * 0.08
  let concentrate_carbon :=
    base_conc_grade + rougher_air_grade_effect + jameson_air_grade_effect + luproset_grade_effect
  let concentrate_carbon := max 20.0 (min 60.0 concentrate_carbon)
  let base_tail_grade := feed_carbon * 0.5
  let luproset_tail_effect := luproset * 0.07
  let rougher_air_tail_effect := -rougher_air * 0.005
  let jameson_air_tail_effect := -jameson_air * 0.0025
  let tailings_carbon :=
    base_tail_grade + luproset_tail_effect + rougher_air_tail_effect + jameson_air_tail_effect
  let tailings_carbon := max 0.2 (min (feed_carbon * 1) tailings_carbon)
  (concentrate_carbon, tailings_carbon)

/-- The condition under which the Python body of `calculate_mass_balance`
raises: one of the two denominators inside the `try` block is zero. -/
def mass_balance_raises (feed_carbon concentrate_carbon tailings_carbon feed_tonnage : ℚ) :
    Prop :=
  concentrate_carbon - tailings_carbon = 0 ∨ feed_tonnage * feed_carbon = 0

instance (feed_carbon concentrate_carbon tailings_carbon feed_tonnage : ℚ) :
    Decidable (mass_balance_raises feed_carbon concentrate_carbon tailings_carbon feed_tonnage) :=
  inferInstanceAs (Decidable (_ ∨ _))

/-- Mass-balance solver, from `calculate_mass_balance` in `carbon_app.py`.
Returns (concentrate_mass, tailings_mass, carbon_recovery); the `except`
branch returns the fixed triple (10, 90, 50). -/
def calculate_mass_balance (feed_carbon concentrate_carbon tailings_carbon : ℚ)
    (feed_tonnage : ℚ := 260) : ℚ × ℚ × ℚ :=
  if mass_balance_raises feed_carbon concentrate_carbon tailings_carbon feed_tonnage then
    (10, 90, 50)
  else
    let concentrate_mass :=
      feed_tonnage * (feed_carbon - tailings_carbon) / (concentrate_carbon - tailings_carbon)
    let carbon_recovery :=
      (concentrate_mass * concentrate_carbon) / (feed_tonnage * feed_carbon) * 100
    let concentrate_mass := max 0 (min (feed_tonnage * 0.5) concentrate_mass)
    let tailings_mass := feed_tonnage - concentrate_mass
    let carbon_recovery := max 0 (min 100 carbon_recovery)
    (concentrate_mass, tailings_mass, carbon_recovery)

/-- Metal-loss model, from `calculate_zn_loss` in `carbon_app.py`. -/
def calculate_zn_loss (carbon_recovery : ℚ) : ℚ :=
  let min_recovery : ℚ := 10
  let max_recovery : ℚ := 55
  let min_zn_loss : ℚ := 0.1
  let max_zn_loss : ℚ := 4.0
  let normalized_recovery := (carbon_recovery - min_recovery) / (max_recovery - min_recovery)
  let normalized_recovery := max 0 (min 1 normalized_recovery)
  min_zn_loss + normalized_recovery * (max_zn_loss - min_zn_loss)

/-- Top-level orchestration, from `calculate_performance` in `carbon_app.py`.
Returns the 7-tuple (total_recovery, concentrate_carbon, tailings_carbon,
conc_mass, tail_mass, carbon_recovery, zn_loss). -/
def calculate_performance (rougher_air jameson_air luproset feed_carbon : ℚ) :
    ℚ × ℚ × ℚ × ℚ × ℚ × ℚ × ℚ :=
  let grades := calculate_carbon_grades rougher_air jameson_air luproset feed_carbon
  let concentrate_carbon := grades.1
  let tailings_carbon := grades.2
  let mb := calculate_mass_balance feed_carbon concentrate_carbon tailings_carbon
  let conc_mass := mb.1
  let tail_mass := mb.2.1
  let carbon_recovery := mb.2.2
  let rougher_air_recovery_effect := rougher_air * 0.045
  let jameson_air_recovery_effect := jameson_air * 0.0225
  let luproset_recovery_effect := -luproset * 0.015
  let base_recovery : ℚ := 0.0
  let total_recovery :=
    base_recovery + rougher_air_recovery_effect + jameson_air_recovery_effect +
      luproset_recovery_effect
  let total_recovery := max 10 (min 55 total_recovery)
  let zn_loss := calculate_zn_loss total_recovery
  (total_recovery, concentrate_carbon, tailings_carbon, conc_mass, tail_mass,
    carbon_recovery, zn_loss)

/-- The spec's clamp helper: `clamp(x, lo, hi) = max(lo, min(hi, x))`. -/
def clamp (x lo hi : ℚ) : ℚ := max lo (min hi x)

/-- Concentrate grade as the spec words it (§4.1). -/
def spec_concentrate_carbon (rougher_air jameson_air luproset : ℚ) : ℚ :=
  clamp (40.0 - 0.012 * rougher_air - 0.006 * jameson_air + 0.08 * luproset) 20.0 60.0

/-- Tailings grade as the spec words it (§4.1). -/
def spec_tailings_carbon (rougher_air jameson_air luproset feed_carbon : ℚ) : ℚ :=
  clamp (0.5 * feed_carbon + 0.07 * luproset - 0.005 * rougher_air - 0.0025 * jameson_air)
    0.2 feed_carbon

/-- Overall recovery as the spec words it (§4.3). -/
def spec_overall_recovery (rougher_air jameson_air luproset : ℚ) : ℚ :=
  clamp (0.045 * rougher_air + 0.0225 * jameson_air - 0.015 * luproset) 10 55

/-- Metal loss as the spec words it (§4.4): linear interpolation from
domain [10, 55] to range [0.1, 4.0] after clamping the input. -/
def spec_metal_loss (overall_recovery : ℚ) : ℚ :=
  0.1 + 3.9 * clamp ((overall_recovery - 10) / 45) 0 1

theorem le_clamp (x lo hi : ℚ) : lo ≤ clamp x lo hi := le_max_left _ _

theorem clamp_le_hi (x lo hi : ℚ) (h : lo ≤ hi) : clamp x lo hi ≤ hi :=
  max_le h (min_le_left _ _)

theorem clamp_eq_self (x lo hi : ℚ) (h1 : lo ≤ x) (h2 : x ≤ hi) : clamp x lo hi = x := by
  rw [clamp, min_eq_right h2, max_eq_right h1]

theorem clamp_mono (x y lo hi : ℚ) (h : x ≤ y) : clamp x lo hi ≤ clamp y lo hi :=
  max_le_max le_rfl (min_le_min le_rfl h)

/-- The grade model written with the `clamp` helper (proved, not assumed). -/
theorem grades_eq (r j l f : ℚ) :
    calculate_carbon_grades r j l f =
      (clamp (40 - 0.012 * r - 0.006 * j + 0.08 * l) 20 60,
        clamp (0.5 * f + 0.07 * l - 0.005 * r - 0.0025 * j) 0.2 f) := by
  have h1 : (40.0 : ℚ) + -r * 0.012 + -j * 0.006 + l * 0.08
      = 40 - 0.012 * r - 0.006 * j + 0.08 * l := by ring
  have h2 : f * 0.5 + l * 0.07 + -r * 0.005 + -j * 0.0025
      = 0.5 * f + 0.07 * l - 0.005 * r - 0.0025 * j := by ring
  have h3 : f * 1 = f := by ring
  have h4 : (20.0 : ℚ) = 20 := by norm_num
  have h5 : (60.0 : ℚ) = 60 := by norm_num
  simp only [calculate_carbon_grades, clamp, h1, h2, h3, h4, h5]

theorem conc_carbon_ge (r j l f : ℚ) : 20 ≤ (calculate_carbon_grades r j l f).1 := by
  rw [grades_eq]
  exact le_clamp _ _ _

theorem conc_carbon_le (r j l f : ℚ) : (calculate_carbon_grades r j l f).1 ≤ 60 := by
  rw [grades_eq]
  exact clamp_le_hi _ _ _ (by norm_num)

theorem tail_carbon_ge (r j l f : ℚ) : 0.2 ≤ (calculate_carbon_grades r j l f).2 := by
  rw [grades_eq]
  exact le_clamp _ _ _

theorem tail_carbon_le (r j l f : ℚ) (hf : 0.2 ≤ f) :
    (calculate_carbon_grades r j l f).2 ≤ f := by
  rw [grades_eq]
  exact clamp_le_hi _ _ _ hf

theorem tail_carbon_le_max (r j l f : ℚ) :
    (calculate_carbon_grades r j l f).2 ≤ max 0.2 f := by
  rw [grades_eq]
  exact max_le_max le_rfl (min_le_left _ _)

/-- The fed grade-model outputs never trip the solver's raise guard when
`0 < feed_carbon ≤ 6`. -/
theorem grades_no_raise (r j l f : ℚ) (hf0 : 0 < f) (hf6 : f ≤ 6) :
    ¬ mass_balance_raises f (calculate_carbon_grades r j l f).1
      (calculate_carbon_grades r j l f).2 260 := by
  have h1 := conc_carbon_ge r j l f
  have h2 : (calculate_carbon_grades r j l f).2 ≤ 6 :=
    le_trans (tail_carbon_le_max r j l f) (max_le (by norm_num) hf6)
  intro h
  rcases h with h | h
  · linarith
  · nlinarith

/-- In the non-raising branch, the two returned masses always sum to the
feed tonnage. -/
theorem mass_balance_sum (fc cc tc ft : ℚ) (h : ¬ mass_balance_raises fc cc tc ft) :
    (calculate_mass_balance fc cc tc ft).1 + (calculate_mass_balance fc cc tc ft).2.1 = ft := by
  simp only [calculate_mass_balance, if_neg h]
  ring

theorem mass_balance_recovery_nonneg (fc cc tc ft : ℚ) :
    0 ≤ (calculate_mass_balance fc cc tc ft).2.2 := by
  by_cases h : mass_balance_raises fc cc tc ft
  · simp only [calculate_mass_balance, if_pos h]
    norm_num
  · simp only [calculate_mass_balance, if_neg h]
    exact le_max_left _ _

theorem mass_balance_recovery_le (fc cc tc ft : ℚ) :
    (calculate_mass_balance fc cc tc ft).2.2 ≤ 100 := by
  by_cases h : mass_balance_raises fc cc tc ft
  · simp only [calculate_mass_balance, if_pos h]
    norm_num
  · simp only [calculate_mass_balance, if_neg h]
    exact max_le (by norm_num) (min_le_left _ _)

theorem zn_loss_ge (x : ℚ) : 0.1 ≤ calculate_zn_loss x := by
  simp only [calculate_zn_loss]
  have h := le_max_left (0 : ℚ) (min 1 ((x - 10) / (55 - 10)))
  nlinarith

theorem zn_loss_le (x : ℚ) : calculate_zn_loss x ≤ 4.0 := by
  simp only [calculate_zn_loss]
  have h : max (0 : ℚ) (min 1 ((x - 10) / (55 - 10))) ≤ 1 :=
    max_le (by norm_num) (min_le_left _ _)
  nlinarith

/-- C1: for inputs in the §3 ranges, the concentrate and tailings masses
returned by the top-level evaluation sum exactly to the feed tonnage 260. -/
theorem claim_C1_mass_conservation (r j l f : ℚ) (hr0 : 0 ≤ r) (hr1 : r ≤ 1000)
    (hj0 : 0 ≤ j) (hj1 : j ≤ 600) (hl0 : 0 ≤ l) (hl1 : l ≤ 100)
    (hf0 : 3 ≤ f) (hf1 : f ≤ 6) :
    (calculate_performance r j l f).2.2.2.1 + (calculate_performance r j l f).2.2.2.2.1
      = 260 := by
  have hnr := grades_no_raise r j l f (by linarith) hf1
  have hsum := mass_balance_sum f (calculate_carbon_grades r j l f).1
    (calculate_carbon_grades r j l f).2 260 hnr
  simp only [calculate_performance]
  exact hsum

theorem claim_C1_mass_conservation_witness :
    (calculate_performance 500 300 50 4.5).2.2.2.1 +
        (calculate_performance 500 300 50 4.5).2.2.2.2.1 = 260 :=
  claim_C1_mass_conservation 500 300 50 4.5 (by norm_num) (by norm_num) (by norm_num)
    (by norm_num) (by norm_num) (by norm_num) (by norm_num) (by norm_num)

/-- C6: for inputs in the §3 ranges, every output of the top-level
evaluation lies in its documented interval: `20 ≤ concentrate_carbon ≤ 60`,
`0.2 ≤ tailings_carbon ≤ feed_carbon`, `10 ≤ overall_recovery ≤ 55`,
`0.1 ≤ metal_loss ≤ 4.0`, and `0 ≤ mass_balance_recovery ≤ 100`. -/
theorem claim_C6_output_bounds (r j l f : ℚ) (hr0 : 0 ≤ r) (hr1 : r ≤ 1000)
    (hj0 : 0 ≤ j) (hj1 : j ≤ 600) (hl0 : 0 ≤ l) (hl1 : l ≤ 100)
    (hf0 : 3 ≤ f) (hf1 : f ≤ 6) :
    (20 ≤ (calculate_performance r j l f).2.1 ∧ (calculate_performance r j l f).2.1 ≤ 60) ∧
      (0.2 ≤ (calculate_performance r j l f).2.2.1 ∧
        (calculate_performance r j l f).2.2.1 ≤ f) ∧
      (10 ≤ (calculate_performance r j l f).1 ∧ (calculate_performance r j l f).1 ≤ 55) ∧
      (0.1 ≤ (calculate_performance r j l f).2.2.2.2.2.2 ∧
        (calculate_performance r j l f).2.2.2.2.2.2 ≤ 4.0) ∧
      (0 ≤ (calculate_performance r j l f).2.2.2.2.2.1 ∧
        (calculate_performance r j l f).2.2.2.2.2.1 ≤ 100) := by
  simp only [calculate_performance]
  refine ⟨⟨conc_carbon_ge r j l f, conc_carbon_le r j l f⟩,
    ⟨tail_carbon_ge r j l f, tail_carbon_le r j l f (by linarith)⟩,
    ⟨le_max_left _ _, max_le (by norm_num) (min_le_left _ _)⟩,
    ⟨zn_loss_ge _, zn_loss_le _⟩,
    ⟨mass_balance_recovery_nonneg _ _ _ _, mass_balance_recovery_le _ _ _ _⟩⟩

theorem claim_C6_output_bounds_witness :
    (20 ≤ (calculate_performance 500 300 50 4.5).2.1 ∧
        (calculate_performance 500 300 50 4.5).2.1 ≤ 60) ∧
      (0.2 ≤ (calculate_performance 500 300 50 4.5).2.2.1 ∧
        (calculate_performance 500 300 50 4.5).2.2.1 ≤ 4.5) ∧
      (10 ≤ (calculate_performance 500 300 50 4.5).1 ∧
        (calculate_performance 500 300 50 4.5).1 ≤ 55) ∧
      (0.1 ≤ (calculate_performance 500 300 50 4.5).2.2.2.2.2.2 ∧
        (calculate_performance 500 300 50 4.5).2.2.2.2.2.2 ≤ 4.0) ∧
      (0 ≤ (calculate_performance 500 300 50 4.5).2.2.2.2.2.1 ∧
        (calculate_performance 500 300 50 4.5).2.2.2.2.2.1 ≤ 100) :=
  claim_C6_output_bounds 500 300 50 4.5 (by norm_num) (by norm_num) (by norm_num)
    (by norm_num) (by norm_num) (by norm_num) (by norm_num) (by norm_num)

/-- C2: the grade model returns exactly the clamped linear formulas of §4.1,
`concentrate_carbon = clamp(40.0 − 0.012·rougher_air − 0.006·jameson_air +
0.08·depressant, 20.0, 60.0)` and `tailings_carbon = clamp(0.5·feed_carbon +
0.07·depressant − 0.005·rougher_air − 0.0025·jameson_air, 0.2, feed_carbon)`,
with `clamp(x, lo, hi) = max(lo, min(hi, x))`, for all real inputs. -/
theorem claim_C2_grade_model_formula (r j l f : ℚ) :
    calculate_carbon_grades r j l f =
      (spec_concentrate_carbon r j l, spec_tailings_carbon r j l f) := by
  have h1 : (40.0 : ℚ) + -r * 0.012 + -j * 0.006 + l * 0.08
      = 40.0 - 0.012 * r - 0.006 * j + 0.08 * l := by ring
  have h2 : f * 0.5 + l * 0.07 + -r * 0.005 + -j * 0.0025
      = 0.5 * f + 0.07 * l - 0.005 * r - 0.0025 * j := by ring
  have h3 : f * 1 = f := by ring
  simp only [calculate_carbon_grades, spec_concentrate_carbon, spec_tailings_carbon, clamp,
    h1, h2, h3]

/-- C3: whenever the body of `calculate_mass_balance` would raise (either
denominator zero, in particular `concentrate_carbon == tailings_carbon`),
the solver returns exactly the fixed fallback triple (10, 90, 50) and never
propagates the fault. -/
theorem claim_C3_fallback_on_raise (fc cc tc ft : ℚ)
    (h : mass_balance_raises fc cc tc ft) :
    calculate_mass_balance fc cc tc ft = (10, 90, 50) := by
  simp only [calculate_mass_balance, if_pos h]

theorem claim_C3_fallback_on_raise_witness :
    mass_balance_raises 4.5 30 30 260 ∧
      calculate_mass_balance 4.5 30 30 260 = (10, 90, 50) :=
  ⟨Or.inl (by norm_num),
    claim_C3_fallback_on_raise 4.5 30 30 260 (Or.inl (by norm_num))⟩

/-- C4: the overall recovery reported by `calculate_performance` equals
exactly `clamp(0.045·rougher_air + 0.0225·jameson_air − 0.015·depressant,
10, 55)` — a formula of the three reagent inputs only, not derived from the
mass-balance solver's recovery figure — and this value is the one fed into
the metal-loss model. -/
theorem claim_C4_overall_recovery_formula (r j l f : ℚ) :
    (calculate_performance r j l f).1 = spec_overall_recovery r j l ∧
      (calculate_performance r j l f).2.2.2.2.2.2 =
        calculate_zn_loss (spec_overall_recovery r j l) := by
  have h : (0.0 : ℚ) + r * 0.045 + j * 0.0225 + -l * 0.015
      = 0.045 * r + 0.0225 * j - 0.015 * l := by ring
  constructor <;>
    simp only [calculate_performance, spec_overall_recovery, clamp, h]

/-- C5: the metal-loss model is exactly the linear interpolation
`0.1 + 3.9·clamp((r − 10)/45, 0, 1)`; inputs at or below 10 yield exactly
0.1, inputs at or above 55 yield exactly 4.0, and the function is
monotonically non-decreasing. -/
theorem claim_C5_metal_loss (r : ℚ) :
    calculate_zn_loss r = spec_metal_loss r ∧
      (r ≤ 10 → calculate_zn_loss r = 0.1) ∧
      (55 ≤ r → calculate_zn_loss r = 4.0) ∧
      (∀ s : ℚ, r ≤ s → calculate_zn_loss r ≤ calculate_zn_loss s) := by
  have hzn : ∀ x : ℚ, calculate_zn_loss x = 0.1 + max 0 (min 1 ((x - 10) / 45)) * 3.9 := by
    intro x
    simp only [calculate_zn_loss]
    norm_num
  refine ⟨?_, ?_, ?_, ?_⟩
  · rw [hzn, spec_metal_loss, clamp]
    ring
  · intro h
    have h0 : (r - 10) / 45 ≤ 0 := by
      rw [div_nonpos_iff]
      right
      constructor <;> linarith
    rw [hzn]
    rw [min_eq_right (by linarith : (r - 10) / 45 ≤ 1), max_eq_left h0]
    norm_num
  · intro h
    have h1 : (1 : ℚ) ≤ (r - 10) / 45 := by
      rw [one_le_div (by norm_num : (0:ℚ) < 45)]
      linarith
    rw [hzn, min_eq_left h1, max_eq_right (by norm_num : (0:ℚ) ≤ 1)]
    norm_num
  · intro s hrs
    rw [hzn, hzn]
    have hd : (r - 10) / 45 ≤ (s - 10) / 45 := by
      rw [div_le_div_iff_of_pos_right (by norm_num : (0:ℚ) < 45)]
      linarith
    have hm : max 0 (min 1 ((r - 10) / 45)) ≤ max 0 (min 1 ((s - 10) / 45)) :=
      max_le_max le_rfl (min_le_min le_rfl hd)
    nlinarith [hm]

theorem claim_C5_metal_loss_witness :
    calculate_zn_loss 5 = 0.1 ∧ calculate_zn_loss 60 = 4.0 ∧
      calculate_zn_loss 20 ≤ calculate_zn_loss 30 :=
  ⟨(claim_C5_metal_loss 5).2.1 (by norm_num),
    (claim_C5_metal_loss 60).2.2.1 (by norm_num),
    (claim_C5_metal_loss 20).2.2.2 30 (by norm_num)⟩

/-- The recovery reported by `calculate_performance`, written with `clamp`. -/
theorem perf_recovery_eq (r j l f : ℚ) :
    (calculate_performance r j l f).1 =
      clamp (0.045 * r + 0.0225 * j - 0.015 * l) 10 55 := by
  have h : (0.0 : ℚ) + r * 0.045 + j * 0.0225 + -l * 0.015
      = 0.045 * r + 0.0225 * j - 0.015 * l := by ring
  simp only [calculate_performance, clamp, h]

/-- C7 as stated is false: the delta of `grade(a, 0, d, f)` from the baseline
`grade(0, 0, d, f)` EQUALS (does not double) the delta of `grade(0, 2a, d, f)`
from the same baseline, because Jameson air carries half the per-unit
coefficient. At `a = 100`, `d = 0`, `f = 4.5` both concentrate-grade deltas
are `-1.2`, so the claimed factor-of-two relation fails. -/
theorem claim_C7_counterexample :
    ¬ ((calculate_carbon_grades 100 0 0 4.5).1 - (calculate_carbon_grades 0 0 0 4.5).1
        = 2 * ((calculate_carbon_grades 0 200 0 4.5).1
          - (calculate_carbon_grades 0 0 0 4.5).1)) := by
  simp only [grades_eq]
  rw [clamp_eq_self _ _ _ (by norm_num) (by norm_num),
    clamp_eq_self _ _ _ (by norm_num) (by norm_num),
    clamp_eq_self _ _ _ (by norm_num) (by norm_num)]
  norm_num

/-- C7 amended: wherever the clamps do not bind, the delta produced by
rougher air `a` from the all-zero-air baseline equals twice the delta
produced by the SAME value `a` of Jameson air (equivalently, Jameson air
needs the value `2a` to reproduce the rougher delta), for the concentrate
grade, the tailings grade, and the recovery model. -/
theorem claim_C7_amended_half_weighting :
    (∀ a l f : ℚ, 20 ≤ 40 - 0.012 * a + 0.08 * l → 40 - 0.012 * a + 0.08 * l ≤ 60 →
      20 ≤ 40 - 0.006 * a + 0.08 * l → 40 - 0.006 * a + 0.08 * l ≤ 60 →
      20 ≤ 40 + 0.08 * l → 40 + 0.08 * l ≤ 60 →
      (calculate_carbon_grades a 0 l f).1 - (calculate_carbon_grades 0 0 l f).1
        = 2 * ((calculate_carbon_grades 0 a l f).1 - (calculate_carbon_grades 0 0 l f).1)) ∧
    (∀ a l f : ℚ,
      0.2 ≤ 0.5 * f + 0.07 * l - 0.005 * a → 0.5 * f + 0.07 * l - 0.005 * a ≤ f →
      0.2 ≤ 0.5 * f + 0.07 * l - 0.0025 * a → 0.5 * f + 0.07 * l - 0.0025 * a ≤ f →
      0.2 ≤ 0.5 * f + 0.07 * l → 0.5 * f + 0.07 * l ≤ f →
      (calculate_carbon_grades a 0 l f).2 - (calculate_carbon_grades 0 0 l f).2
        = 2 * ((calculate_carbon_grades 0 a l f).2 - (calculate_carbon_grades 0 0 l f).2)) ∧
    (∀ a l f : ℚ, 10 ≤ 0.045 * a - 0.015 * l → 0.045 * a - 0.015 * l ≤ 55 →
      10 ≤ 0.0225 * a - 0.015 * l → 0.0225 * a - 0.015 * l ≤ 55 →
      10 ≤ -(0.015 * l) → -(0.015 * l) ≤ 55 →
      (calculate_performance a 0 l f).1 - (calculate_performance 0 0 l f).1
        = 2 * ((calculate_performance 0 a l f).1 - (calculate_performance 0 0 l f).1)) := by
  refine ⟨?_, ?_, ?_⟩
  · intro a l f h1 h2 h3 h4 h5 h6
    simp only [grades_eq]
    rw [clamp_eq_self _ _ _ (by linarith) (by linarith),
      clamp_eq_self _ _ _ (by linarith) (by linarith),
      clamp_eq_self _ _ _ (by linarith) (by linarith)]
    ring
  · intro a l f h1 h2 h3 h4 h5 h6
    simp only [grades_eq]
    rw [clamp_eq_self _ _ _ (by linarith) (by linarith),
      clamp_eq_self _ _ _ (by linarith) (by linarith),
      clamp_eq_self _ _ _ (by linarith) (by linarith)]
    ring
  · intro a l f h1 h2 h3 h4 h5 h6
    simp only [perf_recovery_eq]
    rw [clamp_eq_self _ _ _ (by linarith) (by linarith),
      clamp_eq_self _ _ _ (by linarith) (by linarith),
      clamp_eq_self _ _ _ (by linarith) (by linarith)]
    ring

theorem claim_C7_amended_half_weighting_witness :
    ((calculate_carbon_grades 100 0 0 4.5).1 - (calculate_carbon_grades 0 0 0 4.5).1
        = 2 * ((calculate_carbon_grades 0 100 0 4.5).1
          - (calculate_carbon_grades 0 0 0 4.5).1)) ∧
      ((calculate_carbon_grades 100 0 10 5).2 - (calculate_carbon_grades 0 0 10 5).2
        = 2 * ((calculate_carbon_grades 0 100 10 5).2
          - (calculate_carbon_grades 0 0 10 5).2)) ∧
      ((calculate_performance 100 0 (-1000) 4.5).1 - (calculate_performance 0 0 (-1000) 4.5).1
        = 2 * ((calculate_performance 0 100 (-1000) 4.5).1
          - (calculate_performance 0 0 (-1000) 4.5).1)) :=
  ⟨claim_C7_amended_half_weighting.1 100 0 4.5 (by norm_num) (by norm_num) (by norm_num)
      (by norm_num) (by norm_num) (by norm_num),
    claim_C7_amended_half_weighting.2.1 100 10 5 (by norm_num) (by norm_num) (by norm_num)
      (by norm_num) (by norm_num) (by norm_num),
    claim_C7_amended_half_weighting.2.2 100 (-1000) 4.5 (by norm_num) (by norm_num)
      (by norm_num) (by norm_num) (by norm_num) (by norm_num)⟩

/-- C8: holding the other inputs fixed, the concentrate carbon grade is
monotonically non-increasing in rougher air, non-increasing in Jameson air,
and non-decreasing in depressant, for all real inputs. -/
theorem claim_C8_conc_grade_monotone (r r' j j' l l' f : ℚ) :
    (r ≤ r' → (calculate_carbon_grades r' j l f).1 ≤ (calculate_carbon_grades r j l f).1) ∧
      (j ≤ j' → (calculate_carbon_grades r j' l f).1 ≤ (calculate_carbon_grades r j l f).1) ∧
      (l ≤ l' → (calculate_carbon_grades r j l f).1 ≤ (calculate_carbon_grades r j l' f).1) := by
  refine ⟨?_, ?_, ?_⟩ <;> intro h <;> simp only [grades_eq] <;>
    exact clamp_mono _ _ _ _ (by linarith)

theorem claim_C8_conc_grade_monotone_witness :
    ((calculate_carbon_grades 200 0 0 4.5).1 ≤ (calculate_carbon_grades 100 0 0 4.5).1) ∧
      ((calculate_carbon_grades 100 100 0 4.5).1 ≤ (calculate_carbon_grades 100 0 0 4.5).1) ∧
      ((calculate_carbon_grades 100 0 0 4.5).1 ≤ (calculate_carbon_grades 100 0 50 4.5).1) :=
  ⟨(claim_C8_conc_grade_monotone 100 200 0 100 0 50 4.5).1 (by norm_num),
    (claim_C8_conc_grade_monotone 100 100 0 100 0 50 4.5).2.1 (by norm_num),
    (claim_C8_conc_grade_monotone 100 200 0 100 0 50 4.5).2.2 (by norm_num)⟩

/-- C9 as stated is false: `feed_carbon ≤ 6.0` alone does not make the
exception branch unreachable. At `feed_carbon = 0` (with all other inputs 0)
the recovery division divides by `feed_tonnage · feed_carbon = 0`, the body
raises, and the fallback triple (10, 90, 50) is returned. -/
theorem claim_C9_counterexample :
    mass_balance_raises 0 (calculate_carbon_grades 0 0 0 0).1
        (calculate_carbon_grades 0 0 0 0).2 260 ∧
      calculate_mass_balance 0 (calculate_carbon_grades 0 0 0 0).1
        (calculate_carbon_grades 0 0 0 0).2 260 = (10, 90, 50) := by
  have h : mass_balance_raises 0 (calculate_carbon_grades 0 0 0 0).1
      (calculate_carbon_grades 0 0 0 0).2 260 := Or.inr (by norm_num)
  exact ⟨h, by simp only [calculate_mass_balance, if_pos h]⟩

/-- C9 amended: for `0 < feed_carbon ≤ 6`, when `calculate_mass_balance`
receives the grade model's outputs the denominator
`concentrate_carbon − tailings_carbon` is at least 14, neither division can
raise, the exception branch is unreachable, and the fallback triple
(10, 90, 50) is never returned. -/
theorem claim_C9_amended_no_fallback (r j l f : ℚ) (hf0 : 0 < f) (hf6 : f ≤ 6) :
    14 ≤ (calculate_carbon_grades r j l f).1 - (calculate_carbon_grades r j l f).2 ∧
      ¬ mass_balance_raises f (calculate_carbon_grades r j l f).1
        (calculate_carbon_grades r j l f).2 260 ∧
      calculate_mass_balance f (calculate_carbon_grades r j l f).1
        (calculate_carbon_grades r j l f).2 260 ≠ (10, 90, 50) := by
  have h1 := conc_carbon_ge r j l f
  have h2 : (calculate_carbon_grades r j l f).2 ≤ 6 :=
    le_trans (tail_carbon_le_max r j l f) (max_le (by norm_num) hf6)
  have hnr := grades_no_raise r j l f hf0 hf6
  refine ⟨by linarith, hnr, fun heq => ?_⟩
  have hsum := mass_balance_sum f (calculate_carbon_grades r j l f).1
    (calculate_carbon_grades r j l f).2 260 hnr
  rw [heq] at hsum
  norm_num at hsum

theorem claim_C9_amended_no_fallback_witness :
    14 ≤ (calculate_carbon_grades 0 0 0 4.5).1 - (calculate_carbon_grades 0 0 0 4.5).2 ∧
      ¬ mass_balance_raises 4.5 (calculate_carbon_grades 0 0 0 4.5).1
        (calculate_carbon_grades 0 0 0 4.5).2 260 ∧
      calculate_mass_balance 4.5 (calculate_carbon_grades 0 0 0 4.5).1
        (calculate_carbon_grades 0 0 0 4.5).2 260 ≠ (10, 90, 50) :=
  claim_C9_amended_no_fallback 0 0 0 4.5 (by norm_num) (by norm_num)

/-- C10: for inputs in the §3 ranges the clamps inside
`calculate_mass_balance` never bind: the returned concentrate mass equals
the raw two-product formula `260·(f − tc)/(cc − tc)`, which already lies in
[0, 130]; the raw recovery already lies in [0, 100]; and the returned
recovery equals `100 · concentrate_mass · cc / (260 · f)` exactly, so the
returned triple is mutually consistent. -/
theorem claim_C10_clamps_never_bind (r j l f : ℚ) (hr0 : 0 ≤ r) (hr1 : r ≤ 1000)
    (hj0 : 0 ≤ j) (hj1 : j ≤ 600) (hl0 : 0 ≤ l) (hl1 : l ≤ 100)
    (hf0 : 3 ≤ f) (hf1 : f ≤ 6) :
    (calculate_mass_balance f (calculate_carbon_grades r j l f).1
          (calculate_carbon_grades r j l f).2 260).1
        = 260 * (f - (calculate_carbon_grades r j l f).2)
            / ((calculate_carbon_grades r j l f).1 - (calculate_carbon_grades r j l f).2) ∧
      0 ≤ 260 * (f - (calculate_carbon_grades r j l f).2)
            / ((calculate_carbon_grades r j l f).1 - (calculate_carbon_grades r j l f).2) ∧
      260 * (f - (calculate_carbon_grades r j l f).2)
            / ((calculate_carbon_grades r j l f).1 - (calculate_carbon_grades r j l f).2)
          ≤ 130 ∧
      0 ≤ 260 * (f - (calculate_carbon_grades r j l f).2)
            / ((calculate_carbon_grades r j l f).1 - (calculate_carbon_grades r j l f).2)
            * (calculate_carbon_grades r j l f).1 / (260 * f) * 100 ∧
      260 * (f - (calculate_carbon_grades r j l f).2)
            / ((calculate_carbon_grades r j l f).1 - (calculate_carbon_grades r j l f).2)
            * (calculate_carbon_grades r j l f).1 / (260 * f) * 100
          ≤ 100 ∧
      (calculate_mass_balance f (calculate_carbon_grades r j l f).1
          (calculate_carbon_grades r j l f).2 260).2.2
        = 100 * (calculate_mass_balance f (calculate_carbon_grades r j l f).1
            (calculate_carbon_grades r j l f).2 260).1
            * (calculate_carbon_grades r j l f).1 / (260 * f) := by
  set cc := (calculate_carbon_grades r j l f).1 with hcc
  set tc := (calculate_carbon_grades r j l f).2 with htc
  have h20 : 20 ≤ cc := conc_carbon_ge r j l f
  have h60 : cc ≤ 60 := conc_carbon_le r j l f
  have h02 : 0.2 ≤ tc := tail_carbon_ge r j l f
  have hft : tc ≤ f := tail_carbon_le r j l f (by linarith)
  have hd : 0 < cc - tc := by linarith
  have hnr : ¬ mass_balance_raises f cc tc 260 := grades_no_raise r j l f (by linarith) hf1
  have hR0 : 0 ≤ 260 * (f - tc) / (cc - tc) := div_nonneg (by linarith) (le_of_lt hd)
  have hR130 : 260 * (f - tc) / (cc - tc) ≤ 130 := by
    rw [div_le_iff₀ hd]
    linarith
  have hRcc : 260 * (f - tc) / (cc - tc) * cc ≤ 260 * f := by
    have he : 260 * (f - tc) / (cc - tc) * cc = 260 * (f - tc) * cc / (cc - tc) := by
      ring
    rw [he, div_le_iff₀ hd]
    nlinarith [mul_nonneg (by linarith : (0:ℚ) ≤ tc) (by linarith : (0:ℚ) ≤ cc - f)]
  have hREC0 : 0 ≤ 260 * (f - tc) / (cc - tc) * cc / (260 * f) * 100 := by
    have h := div_nonneg (mul_nonneg hR0 (by linarith : (0:ℚ) ≤ cc))
      (by linarith : (0:ℚ) ≤ 260 * f)
    linarith
  have hREC100 : 260 * (f - tc) / (cc - tc) * cc / (260 * f) * 100 ≤ 100 := by
    have h : 260 * (f - tc) / (cc - tc) * cc / (260 * f) ≤ 1 := by
      rw [div_le_one (by linarith : (0:ℚ) < 260 * f)]
      exact hRcc
    linarith
  have h130' : (260 : ℚ) * 0.5 = 130 := by norm_num
  have hmb : calculate_mass_balance f cc tc 260 =
      (260 * (f - tc) / (cc - tc),
        260 - 260 * (f - tc) / (cc - tc),
        260 * (f - tc) / (cc - tc) * cc / (260 * f) * 100) := by
    simp only [calculate_mass_balance, if_neg hnr, h130']
    rw [min_eq_right hR130, max_eq_right hR0, min_eq_right hREC100, max_eq_right hREC0]
  refine ⟨by rw [hmb], hR0, hR130, hREC0, hREC100, ?_⟩
  rw [hmb]
  ring

theorem claim_C10_clamps_never_bind_witness :
    (calculate_mass_balance 4.5 (calculate_carbon_grades 500 300 50 4.5).1
          (calculate_carbon_grades 500 300 50 4.5).2 260).1
        = 260 * (4.5 - (calculate_carbon_grades 500 300 50 4.5).2)
            / ((calculate_carbon_grades 500 300 50 4.5).1
              - (calculate_carbon_grades 500 300 50 4.5).2) ∧
      0 ≤ 260 * (4.5 - (calculate_carbon_grades 500 300 50 4.5).2)
            / ((calculate_carbon_grades 500 300 50 4.5).1
              - (calculate_carbon_grades 500 300 50 4.5).2) ∧
      260 * (4.5 - (calculate_carbon_grades 500 300 50 4.5).2)
            / ((calculate_carbon_grades 500 300 50 4.5).1
              - (calculate_carbon_grades 500 300 50 4.5).2)
          ≤ 130 ∧
      0 ≤ 260 * (4.5 - (calculate_carbon_grades 500 300 50 4.5).2)
            / ((calculate_carbon_grades 500 300 50 4.5).1
              - (calculate_carbon_grades 500 300 50 4.5).2)
            * (calculate_carbon_grades 500 300 50 4.5).1 / (260 * 4.5) * 100 ∧
      260 * (4.5 - (calculate_carbon_grades 500 300 50 4.5).2)
            / ((calculate_carbon_grades 500 300 50 4.5).1
              - (calculate_carbon_grades 500 300 50 4.5).2)
            * (calculate_carbon_grades 500 300 50 4.5).1 / (260 * 4.5) * 100
          ≤ 100 ∧
      (calculate_mass_balance 4.5 (calculate_carbon_grades 500 300 50 4.5).1
          (calculate_carbon_grades 500 300 50 4.5).2 260).2.2
        = 100 * (calculate_mass_balance 4.5 (calculate_carbon_grades 500 300 50 4.5).1
            (calculate_carbon_grades 500 300 50 4.5).2 260).1
            * (calculate_carbon_grades 500 300 50 4.5).1 / (260 * 4.5) :=
  claim_C10_clamps_never_bind 500 300 50 4.5 (by norm_num) (by norm_num) (by norm_num)
    (by norm_num) (by norm_num) (by norm_num) (by norm_num) (by norm_num)

end CarbonApp
